import Mathlib

/-!
Verification of `conversor_de_partituras.py`, a pipeline that converts a
scanned sheet-music PDF into narrated audio files.  The Python source is
shallowly embedded: external effects (the Audiveris OMR subprocess, the
fluidsynth synthesiser, file existence, music21 parsing, the narration
engine) are supplied by per-page oracles, and the control flow of
`process_pdf` (lines 120-219 of the source) is translated branch by branch,
including which temporary files each path removes.
-/

namespace Conversor

/-! ## Score model (music21 objects as `process_pdf` and
`generate_narration_text` observe them) -/

/-- The slice of `score.metadata` read by the source: only `title`
(`None` or a string). -/
structure ScoreMetadata where
  title : Option String
deriving DecidableEq, Repr

/-- The slice of `score.analyze('key')` read on success: `tonic.name` and
`mode`. -/
structure KeyInfo where
  tonicName : String
  mode : String
deriving DecidableEq, Repr

/-- A parsed score as the source observes it.  `keyAnalysis = none` models
`score.analyze('key')` raising; `tsLookup`/`tempoLookup = none` model the
respective `recurse().getElementsByClass(...)` lookups raising, and
`some l` gives the elements found in document order (`ratioString` for each
time signature, `number` for each metronome mark, where a mark's `number`
may itself be `None`).  Numbers are modelled as `Nat`. -/
structure SymbolicScore where
  metadata : Option ScoreMetadata
  keyAnalysis : Option KeyInfo
  tsLookup : Option (List String)
  tempoLookup : Option (List (Option Nat))
deriving DecidableEq, Repr

/-! ## Narration text (source lines 58-95) -/

/-- The opening sentence of the narration (line 63). -/
def narrIntro (title : String) : String :=
  "A seguir, você ouvirá a peça " ++ title ++ ". "

/-- The fixed fallback clause of the key extraction (line 69). -/
def keyFallback : String := "A tonalidade da peça não pôde ser determinada. "

/-- The fixed fallback clause of the time-signature extraction
(lines 77 and 79). -/
def tsFallback : String := "O compasso não foi identificado. "

/-- The fixed fallback clause of the tempo extraction (lines 90 and 92). -/
def tempoFallback : String := "O andamento não foi identificado. "

/-- The closing sentence of the narration (line 94). -/
def narrClosing : String :=
  "Ouça atentamente e observe os detalhes para aprender a tocar esta música."

/-- The sentence contributed by the key extraction (lines 65-69): the key
clause on success of `analyze('key')`, the fallback when it raises. -/
def keyClause (score : SymbolicScore) : String :=
  match score.keyAnalysis with
  | some k =>
      "Esta peça está na tonalidade de " ++ k.tonicName ++ " " ++ k.mode ++ ". "
  | none => keyFallback

/-- The sentence contributed by the time-signature extraction (lines 72-79):
the first signature found, the fallback when none is found or the lookup
raises. -/
def tsClause (score : SymbolicScore) : String :=
  match score.tsLookup with
  | some (t :: _) => "O compasso é " ++ t ++ ". "
  | some [] => tsFallback
  | none => tsFallback

/-- The first metronome mark's `number` (lines 83-86: the loop assigns the
first mark's number and breaks; with no marks, `tempo` stays `None`). -/
def firstTempo (marks : List (Option Nat)) : Option Nat :=
  match marks with
  | [] => none
  | m :: _ => m

/-- The sentence contributed by the tempo extraction (lines 82-92): the
tempo clause when the first mark's number is truthy (present and nonzero,
Python `if tempo:`), the fallback otherwise or when the lookup raises. -/
def tempoClause (score : SymbolicScore) : String :=
  match score.tempoLookup with
  | some marks =>
      match firstTempo marks with
      | some n => if n ≠ 0 then "O andamento é de " ++ toString n ++ " batidas por minuto. " else tempoFallback
      | none => tempoFallback
  | none => tempoFallback

/-- `generate_narration_text` (lines 58-95), translated statement by
statement: the narration accumulator starts with the intro and each of the
three `try`/`except` blocks appends either its informational clause or its
own fixed fallback, then the closing sentence is appended. -/
def generate_narration_text (score : SymbolicScore) (title : String) : String :=
  let narration := "A seguir, você ouvirá a peça " ++ title ++ ". "
  let narration := narration ++
    (match score.keyAnalysis with
     | some k =>
         "Esta peça está na tonalidade de " ++ k.tonicName ++ " " ++ k.mode ++ ". "
     | none => "A tonalidade da peça não pôde ser determinada. ")
  let narration := narration ++
    (match score.tsLookup with
     | some (t :: _) => "O compasso é " ++ t ++ ". "
     | some [] => "O compasso não foi identificado. "
     | none => "O compasso não foi identificado. ")
  let narration := narration ++
    (match score.tempoLookup with
     | some marks =>
         match firstTempo marks with
         | some n =>
             if n ≠ 0 then "O andamento é de " ++ toString n ++ " batidas por minuto. "
             else "O andamento não foi identificado. "
         | none => "O andamento não foi identificado. "
     | none => "O andamento não foi identificado. ")
  narration ++ "Ouça atentamente e observe os detalhes para aprender a tocar esta música."

/-! ## Title resolution (source lines 164-168) -/

/-- Python `str.strip()` as used on the title: drop leading and trailing
whitespace characters. -/
def pyStrip (s : String) : String :=
  String.mk (((s.data.dropWhile Char.isWhitespace).reverse.dropWhile Char.isWhitespace).reverse)

/-- Python `str.replace(" ", "_")` as used on the title: the pattern is the
single space character, so each space becomes an underscore. -/
def replaceSpaces (s : String) : String :=
  String.mk (s.data.map (fun c => if c = ' ' then '_' else c))

/-- The default title of line 168: `Partitura_<token>_<page index>`. -/
def placeholderTitle (i : Nat) (token : String) : String :=
  "Partitura_" ++ token ++ "_" ++ toString i

/-- Title resolution (lines 164-168): when `score.metadata` is not `None`
and `score.metadata.title` is truthy (present and non-empty as written),
the title is `score.metadata.title.strip().replace(" ", "_")`; otherwise
the placeholder `Partitura_<token>_<i>`. -/
def resolvedTitle (i : Nat) (token : String) (score : SymbolicScore) : String :=
  match score.metadata with
  | some md =>
      match md.title with
      | some t => if t = "" then placeholderTitle i token else replaceSpaces (pyStrip t)
      | none => placeholderTitle i token
  | none => placeholderTitle i token

/-! ## Locating the recognized score (source lines 107-118) -/

/-- `find_musicxml_file` (lines 107-118): file existence is supplied by the
booleans `xmlExists`/`mxlExists` for `base_path + ".xml"` and
`base_path + ".mxl"`; the `.xml` candidate is checked first. -/
def find_musicxml_file (xmlExists mxlExists : Bool) (basePath : String) : Option String :=
  if xmlExists then some (basePath ++ ".xml")
  else if mxlExists then some (basePath ++ ".mxl")
  else none

/-! ## Sheet-music classifier (source lines 45-56)

A page raster is a list of rows of BGR pixels.  The OpenCV steps are
embedded concretely: grayscale conversion with the BT.601 weights used by
`cv2.COLOR_BGR2GRAY`, inverse binarisation at threshold 127, and a
morphological opening with the 25x1 rectangular structuring element of
line 52 applied with `iterations=2` (two erosions then two dilations; the
kernel has height 1, so rows are independent, and out-of-range positions
are neutral for the min/max, as with OpenCV's default morphology border). -/

/-- One pixel in OpenCV BGR channel order. -/
structure Pixel where
  b : Nat
  g : Nat
  r : Nat
deriving DecidableEq, Repr

/-- `cv2.cvtColor(image, cv2.COLOR_BGR2GRAY)` per pixel: the rounded
fixed-point BT.601 luma 0.299 R + 0.587 G + 0.114 B. -/
def grayOf (p : Pixel) : Nat :=
  (299 * p.r + 587 * p.g + 114 * p.b + 500) / 1000

/-- `cv2.threshold(gray, 127, 255, cv2.THRESH_BINARY_INV)` per value:
0 where the gray value exceeds 127, else 255. -/
def threshInv (v : Nat) : Nat :=
  if 127 < v then 0 else 255

/-- Erosion of one row by the 25x1 kernel (anchor at offset 12): the
minimum over the in-range part of the window. -/
def erodeRow (row : List Nat) : List Nat :=
  (List.range row.length).map (fun j =>
    ((List.range 25).filterMap (fun o =>
      if 12 ≤ j + o then row.get? (j + o - 12) else none)).foldl min 255)

/-- Dilation of one row by the 25x1 kernel (anchor at offset 12): the
maximum over the in-range part of the window. -/
def dilateRow (row : List Nat) : List Nat :=
  (List.range row.length).map (fun j =>
    ((List.range 25).filterMap (fun o =>
      if 12 ≤ j + o then row.get? (j + o - 12) else none)).foldl max 0)

/-- Lines 50-53: grayscale, inverse binarisation, then
`cv2.morphologyEx(thresh, cv2.MORPH_OPEN, horizontal_kernel, iterations=2)`
(erode twice, dilate twice, row by row). -/
def detected_lines (image : List (List Pixel)) : List (List Nat) :=
  let thresh := image.map (fun row => row.map (fun p => threshInv (grayOf p)))
  thresh.map (fun row => dilateRow (dilateRow (erodeRow (erodeRow row))))

/-- `cv2.countNonZero` over the row list. -/
def countNonZero (rows : List (List Nat)) : Nat :=
  (rows.map (fun row => (row.filter (fun v => v ≠ 0)).length)).sum

/-- `image.shape[0] * image.shape[1]` (line 55): rows times columns. -/
def totalPixelCount (image : List (List Pixel)) : Nat :=
  image.length * (image.headD []).length

/-- `is_sheet_music` (lines 45-56): the page is classified as music exactly
when `line_pixels / total_pixels > 0.01`, computed over the opened image. -/
def is_sheet_music (image : List (List Pixel)) : Bool :=
  let linePixels := countNonZero (detected_lines image)
  let totalPixels := totalPixelCount image
  decide ((linePixels : ℚ) / (totalPixels : ℚ) > 1 / 100)

/-! ## The per-page pipeline (source lines 120-219)

External effects are supplied by a `PageOracle`: the classifier's decision
for the page (`isMusic`, line 143), whether the Audiveris subprocess exits
zero (`omrExit`, line 150), which of its two output files exist afterwards
(`omrXml`/`omrMxl`, lines 112-117), the result of `converter.parse`
(`parse`, line 163; `none` models it raising), whether the MIDI translation
and write succeed (`midiOk`, lines 171-174), whether fluidsynth exits zero
(`synthExit`, line 180), whether the narration engine succeeds and the two
waveforms load (`narrOk`, lines 189-192), the narration and piece waveform
contents as sample lists in milliseconds (`narrationWav`, `pieceWav`), and
the page's `uuid4().hex` token (`token`, line 139). -/

/-- `SOUNDFONT_PATH` with its default (line 22). -/
def SOUNDFONT_PATH : String := "soundfont.sf2"

/-- The oracle of one page's external effects (see the section comment). -/
structure PageOracle where
  isMusic : Bool
  omrExit : Bool
  omrXml : Bool
  omrMxl : Bool
  parse : Option SymbolicScore
  midiOk : Bool
  synthExit : Bool
  narrOk : Bool
  narrationWav : List Int
  pieceWav : List Int
  token : String
deriving DecidableEq, Repr

/-- Where one page's iteration of the loop body (lines 138-217) ends. -/
inductive PageStatus where
  | notMusic
  | omrFailed
  | missingOutput
  | parseFailed
  | midiFailed
  | synthFailed
  | narrationFailed
  | finalized
deriving DecidableEq, Repr

/-- What one page's iteration produced: its terminal status, its index
entry (title and final filename, line 199) if finalized, the composed
final waveform if finalized, the subprocess commands run, and the
temporary files still existing when the iteration ends (files the page
created that no `os.remove` of its control path deleted). -/
structure PageStep where
  status : PageStatus
  entry : Option (String × String)
  finalWav : Option (List Int)
  cmds : List String
  leaked : List String
deriving DecidableEq, Repr

/-- `image_filename` of line 140: `temp_page_<token>_<i>.png`. -/
def imageFilename (i : Nat) (token : String) : String :=
  "temp_page_" ++ token ++ "_" ++ toString i ++ ".png"

/-- `base_name` of line 147: the image filename without its extension. -/
def pageBaseName (i : Nat) (token : String) : String :=
  "temp_page_" ++ token ++ "_" ++ toString i

/-- `midi_file` of line 170: `temp_page_<token>_<i>.mid`. -/
def midiFilename (i : Nat) (token : String) : String :=
  pageBaseName i token ++ ".mid"

/-- `piece_audio_file` of line 177: `temp_piece_<token>_<i>.wav`. -/
def pieceFilename (i : Nat) (token : String) : String :=
  "temp_piece_" ++ token ++ "_" ++ toString i ++ ".wav"

/-- The Audiveris command of line 148. -/
def omrCmd (i : Nat) (token : String) : String :=
  "audiveris -batch -export -output . " ++ imageFilename i token

/-- The fluidsynth command of line 178. -/
def synthCmd (i : Nat) (token : String) : String :=
  "fluidsynth -ni " ++ SOUNDFONT_PATH ++ " " ++ midiFilename i token ++ " -F " ++ pieceFilename i token ++ " -r 44100"

/-- The recognized-score files Audiveris left beside the page image:
`<base>.xml` and/or `<base>.mxl`, per the oracle's existence bits. -/
def omrLeftovers (i : Nat) (o : PageOracle) : List String :=
  (if o.omrXml then [pageBaseName i o.token ++ ".xml"] else []) ++
  (if o.omrMxl then [pageBaseName i o.token ++ ".mxl"] else [])

/-- One iteration of the page loop (lines 138-217), branch by branch.
The three `continue` statements (lines 154, 160, 184) skip the cleanup
block of lines 206-217, so their paths keep whatever temporary files
`os.remove(image_filename)` did not delete: on an Audiveris failure any
`.xml`/`.mxl` the tool wrote, and on a fluidsynth failure the
`.xml`/`.mxl` file plus the `.mid` file written at lines 170-174.
Exceptions raised inside the `try` of lines 162-202 (parse, MIDI
translation, narration) are caught at line 201 and fall through to the
cleanup block, which removes every temporary file that exists, as does
the non-music branch and the finalized path. -/
def processPage (i : Nat) (o : PageOracle) : PageStep :=
  if o.isMusic then
    let omr := omrCmd i o.token
    if o.omrExit = false then
      { status := .omrFailed, entry := none, finalWav := none, cmds := [omr],
        leaked := omrLeftovers i o }
    else
      match find_musicxml_file o.omrXml o.omrMxl (pageBaseName i o.token) with
      | none =>
          { status := .missingOutput, entry := none, finalWav := none,
            cmds := [omr], leaked := [] }
      | some _ =>
          match o.parse with
          | none =>
              { status := .parseFailed, entry := none, finalWav := none,
                cmds := [omr], leaked := [] }
          | some score =>
              if o.midiOk = false then
                { status := .midiFailed, entry := none, finalWav := none,
                  cmds := [omr], leaked := [] }
              else if o.synthExit = false then
                { status := .synthFailed, entry := none, finalWav := none,
                  cmds := [omr, synthCmd i o.token],
                  leaked := omrLeftovers i o ++ [midiFilename i o.token] }
              else if o.narrOk = false then
                { status := .narrationFailed, entry := none, finalWav := none,
                  cmds := [omr, synthCmd i o.token], leaked := [] }
              else
                let title := resolvedTitle i o.token score
                { status := .finalized,
                  entry := some (title, title ++ "_narrado.wav"),
                  finalWav := some (o.narrationWav ++ List.replicate 1000 0 ++ o.pieceWav),
                  cmds := [omr, synthCmd i o.token], leaked := [] }
  else
    { status := .notMusic, entry := none, finalWav := none, cmds := [], leaked := [] }

/-- Whether a page reaches line 199 (its entry is recorded): every stage
of its pipeline succeeds. -/
def pageSucceeds (o : PageOracle) : Bool :=
  o.isMusic && o.omrExit && (o.omrXml || o.omrMxl) && o.parse.isSome &&
    o.midiOk && o.synthExit && o.narrOk

/-- `narrated_scores[title] = final_audio_filename` (line 199): Python
dict assignment — replace the value in place when the key exists, append
otherwise. -/
def dictInsert (d : List (String × String)) (k v : String) : List (String × String) :=
  if d.any (fun p => p.1 == k) then
    d.map (fun p => if p.1 = k then (k, v) else p)
  else d ++ [(k, v)]

/-- The page loop of lines 138-217 accumulating `narrated_scores`. -/
def jobGo (i : Nat) (acc : List (String × String)) : List PageOracle → List (String × String)
  | [] => acc
  | o :: rest =>
      jobGo (i + 1)
        (match (processPage i o).entry with
         | some e => dictInsert acc e.1 e.2
         | none => acc) rest

/-- `process_pdf` (lines 120-219): the job-level sound-font check of
lines 131-133 raises before any page is rasterised; otherwise the page
loop runs and the accumulated index is returned (line 219). -/
def process_pdf (soundfontExists : Bool) (pages : List PageOracle) :
    Except String (List (String × String)) :=
  if soundfontExists then Except.ok (jobGo 0 [] pages)
  else Except.error ("SoundFont não encontrado em " ++ SOUNDFONT_PATH ++ ".")

/-- The index entries the pages produce, in page order, before dict
accumulation. -/
def pageEntriesGo (i : Nat) : List PageOracle → List (String × String)
  | [] => []
  | o :: rest =>
      match (processPage i o).entry with
      | some e => e :: pageEntriesGo (i + 1) rest
      | none => pageEntriesGo (i + 1) rest

/-- First-match lookup in an association list (how a Python dict is read). -/
def lookupKey (d : List (String × String)) (k : String) : Option String :=
  match d with
  | [] => none
  | p :: rest => if p.1 = k then some p.2 else lookupKey rest k

/-- How many entries of `d` carry the key `k`. -/
def countKey (d : List (String × String)) (k : String) : Nat :=
  (d.filter (fun p => p.1 == k)).length

/-- The value of the last entry of `es` carrying the key `k`. -/
def lastVal (es : List (String × String)) (k : String) : Option String :=
  match es with
  | [] => none
  | p :: rest =>
      match lastVal rest k with
      | some v => some v
      | none => if p.1 = k then some p.2 else none

/-- The keys of an association list, in order. -/
def keysOf (d : List (String × String)) : List String := d.map Prod.fst

/-! ## Concrete inputs used by counterexamples and witnesses -/

/-- A score none of whose extractions yields anything. -/
def emptyScore : SymbolicScore :=
  { metadata := none, keyAnalysis := none, tsLookup := none, tempoLookup := none }

/-- A score with full metadata, as in the spec's scenario B. -/
def fullScore : SymbolicScore :=
  { metadata := some { title := some "Ode" },
    keyAnalysis := some { tonicName := "C", mode := "major" },
    tsLookup := some [ "4/4" ], tempoLookup := some [ some 120 ] }

/-- A score whose metadata title is a single space: truthy in Python, empty
once stripped. -/
def blankTitleScore : SymbolicScore :=
  { metadata := some { title := some " " },
    keyAnalysis := none, tsLookup := none, tempoLookup := none }

/-- A score whose metadata title has surrounding blanks and inner spaces. -/
def odeScore : SymbolicScore :=
  { metadata := some { title := some " Ode à Alegria " },
    keyAnalysis := none, tsLookup := none, tempoLookup := none }

/-- A music page on which every stage up to fluidsynth succeeds and
fluidsynth exits non-zero. -/
def c1page : PageOracle :=
  { isMusic := true, omrExit := true, omrXml := true, omrMxl := false,
    parse := some fullScore, midiOk := true, synthExit := false, narrOk := true,
    narrationWav := [ 1, 2 ], pieceWav := [ 3 ], token := "deadbeef" }

/-- A music page on which the Audiveris subprocess exits non-zero. -/
def c2page : PageOracle :=
  { isMusic := true, omrExit := false, omrXml := false, omrMxl := false,
    parse := none, midiOk := false, synthExit := false, narrOk := false,
    narrationWav := [], pieceWav := [], token := "0badc0de" }

/-- A fully successful music page whose score carries the title of
`odeScore`. -/
def c4page : PageOracle :=
  { isMusic := true, omrExit := true, omrXml := true, omrMxl := false,
    parse := some odeScore, midiOk := true, synthExit := true, narrOk := true,
    narrationWav := [], pieceWav := [], token := "c4token0" }

/-- A fully successful music page whose score has no metadata at all. -/
def c4pageUntitled : PageOracle :=
  { isMusic := true, omrExit := true, omrXml := false, omrMxl := true,
    parse := some emptyScore, midiOk := true, synthExit := true, narrOk := true,
    narrationWav := [], pieceWav := [], token := "c4token1" }

/-- A fully successful music page with two-sample narration and
one-sample piece waveforms. -/
def c6page : PageOracle :=
  { isMusic := true, omrExit := true, omrXml := true, omrMxl := true,
    parse := some fullScore, midiOk := true, synthExit := true, narrOk := true,
    narrationWav := [ 7, 8 ], pieceWav := [ 9 ], token := "c6token0" }

/-- A page classified as non-music. -/
def c7page : PageOracle :=
  { isMusic := false, omrExit := true, omrXml := true, omrMxl := true,
    parse := some fullScore, midiOk := true, synthExit := true, narrOk := true,
    narrationWav := [], pieceWav := [], token := "c7token0" }

/-- A music page whose OMR run succeeds but leaves neither output file. -/
def c8page : PageOracle :=
  { isMusic := true, omrExit := true, omrXml := false, omrMxl := false,
    parse := some fullScore, midiOk := true, synthExit := true, narrOk := true,
    narrationWav := [], pieceWav := [], token := "c8token0" }

/-- A fully successful music page titled `Ode`. -/
def c10pageA : PageOracle :=
  { isMusic := true, omrExit := true, omrXml := true, omrMxl := false,
    parse := some fullScore, midiOk := true, synthExit := true, narrOk := true,
    narrationWav := [ 1 ], pieceWav := [ 2 ], token := "c10tokenA" }

/-- A second fully successful music page resolving to the same title
`Ode`. -/
def c10pageB : PageOracle :=
  { isMusic := true, omrExit := true, omrXml := false, omrMxl := true,
    parse := some fullScore, midiOk := true, synthExit := true, narrOk := true,
    narrationWav := [ 3 ], pieceWav := [ 4 ], token := "c10tokenB" }

/-! ## Helper lemmas about the page step -/

/-- A page on which some stage fails contributes no index entry. -/
lemma processPage_entry_none (i : Nat) (o : PageOracle)
    (h : pageSucceeds o = false) : (processPage i o).entry = none := by
  obtain ⟨isM, omr, xml, mxl, parse, midi, synth, narr, nw, pw, tok⟩ := o
  cases isM <;> cases omr <;> cases xml <;> cases mxl <;> cases parse <;>
    cases midi <;> cases synth <;> cases narr <;>
      first
      | rfl
      | simp_all [pageSucceeds]

/-- A page on which every stage succeeds is finalized, with the entry of
line 199 and the composed waveform of line 194. -/
lemma processPage_success (i : Nat) (o : PageOracle) (s : SymbolicScore)
    (hp : o.parse = some s) (h : pageSucceeds o = true) :
    (processPage i o).status = PageStatus.finalized ∧
    (processPage i o).entry =
      some (resolvedTitle i o.token s, resolvedTitle i o.token s ++ "_narrado.wav") ∧
    (processPage i o).finalWav =
      some (o.narrationWav ++ List.replicate 1000 0 ++ o.pieceWav) := by
  obtain ⟨isM, omr, xml, mxl, parse, midi, synth, narr, nw, pw, tok⟩ := o
  simp only at hp
  subst hp
  cases isM <;> cases omr <;> cases xml <;> cases mxl <;>
    cases midi <;> cases synth <;> cases narr <;>
      first
      | exact ⟨rfl, rfl, rfl⟩
      | simp_all [pageSucceeds]

/-! ## Claim theorems -/

/-- C1: the claim says every temporary artifact of a failed page is removed
before the next page begins.  The code violates it: on a fluidsynth failure
the `continue` of line 184 skips the cleanup block of lines 206-217 and
only the page image was removed, so the page's `.xml` score file and `.mid`
file are still on disk when the next page starts.  This theorem evaluates
the embedded pipeline at such a page. -/
theorem c1_synth_failure_leaks :
    (processPage 0 c1page).status = PageStatus.synthFailed ∧
    (processPage 0 c1page).leaked =
      [ pageBaseName 0 "deadbeef" ++ ".xml", midiFilename 0 "deadbeef" ] ∧
    (processPage 0 c1page).leaked ≠ [] := by
  refine ⟨rfl, rfl, by decide⟩

/-- C2: a page on which a page-level stage fails (classification said
music, some later stage failed) leaves `process_pdf` returning normally,
contributes no entry, and leaves the accumulation over the remaining pages
exactly as it would be without the failed page's contribution. -/
theorem c2_page_failure_isolated (as bs : List PageOracle) (p : PageOracle)
    (i : Nat) (acc : List (String × String))
    (_hm : p.isMusic = true) (hf : pageSucceeds p = false) :
    (∃ idx, process_pdf true (as ++ p :: bs) = Except.ok idx) ∧
    (processPage i p).entry = none ∧
    jobGo i acc (p :: bs) = jobGo (i + 1) acc bs := by
  refine ⟨⟨jobGo 0 [] (as ++ p :: bs), by simp [process_pdf]⟩,
    processPage_entry_none i p hf, ?_⟩
  simp [jobGo, processPage_entry_none i p hf]

/-- C2 witness: a single-page document whose only page fails at the
Audiveris subprocess still returns normally with an empty accumulation. -/
theorem c2_page_failure_witness :
    (∃ idx, process_pdf true ([] ++ c2page :: []) = Except.ok idx) ∧
    (processPage 0 c2page).entry = none ∧
    jobGo 0 [] (c2page :: []) = jobGo 1 [] [] :=
  c2_page_failure_isolated [] [] c2page 0 [] rfl rfl

/-- C5: with the sound-font resource absent, `process_pdf` fails at once
with the configuration error of line 133: the result is the error (never
`ok`, so no entry is returned for the job), and it does not depend on the
pages at all (no page is rasterised or processed). -/
theorem c5_missing_soundfont_aborts (pages : List PageOracle) :
    process_pdf false pages =
      Except.error ("SoundFont não encontrado em " ++ SOUNDFONT_PATH ++ ".") ∧
    (∀ idx, process_pdf false pages ≠ Except.ok idx) ∧
    (∀ pages2, process_pdf false pages = process_pdf false pages2) := by
  refine ⟨rfl, fun idx h => by simp [process_pdf] at h, fun pages2 => rfl⟩

/-- C6: a finalized page's composed waveform is the narration waveform,
then exactly 1000 ms of silence, then the piece waveform, and its length
is the sum of the two lengths plus 1000. -/
theorem c6_final_mix_composition (i : Nat) (o : PageOracle)
    (h : pageSucceeds o = true) :
    (processPage i o).finalWav =
      some (o.narrationWav ++ List.replicate 1000 0 ++ o.pieceWav) ∧
    (o.narrationWav ++ List.replicate 1000 0 ++ o.pieceWav).length =
      o.narrationWav.length + 1000 + o.pieceWav.length := by
  have hp : ∃ s, o.parse = some s := by
    rcases hs : o.parse with _ | s
    · rw [pageSucceeds, hs] at h
      simp at h
    · exact ⟨s, rfl⟩
  obtain ⟨s, hs⟩ := hp
  refine ⟨(processPage_success i o s hs h).2.2, ?_⟩
  rw [List.length_append, List.length_append, List.length_replicate]

/-- C6 witness: the composed waveform of a concrete successful page. -/
theorem c6_final_mix_witness :
    (processPage 0 c6page).finalWav =
      some ([ 7, 8 ] ++ List.replicate 1000 0 ++ [ 9 ]) ∧
    (([ 7, 8 ] : List Int) ++ List.replicate 1000 0 ++ [ 9 ]).length = 2 + 1000 + 1 :=
  c6_final_mix_composition 0 c6page rfl

/-- C7: a page classified as non-music runs no subprocess at all (in
particular the OMR tool is never invoked) and contributes no entry to the
result index. -/
theorem c7_nonmusic_no_omr (i : Nat) (o : PageOracle)
    (h : o.isMusic = false) :
    (processPage i o).cmds = [] ∧
    (processPage i o).entry = none ∧
    (processPage i o).status = PageStatus.notMusic := by
  obtain ⟨isM, omr, xml, mxl, parse, midi, synth, narr, nw, pw, tok⟩ := o
  simp only at h
  subst h
  exact ⟨rfl, rfl, rfl⟩

/-- C7 witness: a concrete non-music page. -/
theorem c7_nonmusic_witness :
    (processPage 0 c7page).cmds = [] ∧
    (processPage 0 c7page).entry = none ∧
    (processPage 0 c7page).status = PageStatus.notMusic :=
  c7_nonmusic_no_omr 0 c7page rfl

/-- C8: after a successful OMR exit the recognized-score path is
`<base>.xml` when that file exists, else `<base>.mxl` when that one does
(`.xml` wins when both exist), and when neither exists the page ends as a
missing-output failure with no index entry. -/
theorem c8_musicxml_priority (xml mxl : Bool) (base : String) (i : Nat)
    (o : PageOracle) :
    (xml = true → find_musicxml_file xml mxl base = some (base ++ ".xml")) ∧
    (xml = false → mxl = true → find_musicxml_file xml mxl base = some (base ++ ".mxl")) ∧
    (xml = false → mxl = false → find_musicxml_file xml mxl base = none) ∧
    (o.isMusic = true → o.omrExit = true → o.omrXml = false → o.omrMxl = false →
      (processPage i o).status = PageStatus.missingOutput ∧
      (processPage i o).entry = none) := by
  refine ⟨?_, ?_, ?_, ?_⟩
  · intro hx
    subst hx
    rfl
  · intro hx hmx
    subst hx
    subst hmx
    rfl
  · intro hx hmx
    subst hx
    subst hmx
    rfl
  · intro hm ho hx hmx
    obtain ⟨isM, omr, oxml, omxl, parse, midi, synth, narr, nw, pw, tok⟩ := o
    simp only at hm ho hx hmx
    subst hm
    subst ho
    subst hx
    subst hmx
    exact ⟨rfl, rfl⟩

/-- C8 witness: both files existing picks `.xml`; only `.mxl` existing
picks it; a concrete page with neither ends as missing output. -/
theorem c8_musicxml_witness :
    find_musicxml_file true true "base" = some ("base" ++ ".xml") ∧
    find_musicxml_file false true "base" = some ("base" ++ ".mxl") ∧
    find_musicxml_file false false "base" = none ∧
    ((processPage 0 c8page).status = PageStatus.missingOutput ∧
      (processPage 0 c8page).entry = none) :=
  ⟨(c8_musicxml_priority true true "base" 0 c8page).1 rfl,
   (c8_musicxml_priority false true "base" 0 c8page).2.1 rfl rfl,
   (c8_musicxml_priority false false "base" 0 c8page).2.2.1 rfl rfl,
   (c8_musicxml_priority false false "base" 0 c8page).2.2.2 rfl rfl rfl rfl⟩

/-- C3: narration generation is total (a Lean function, and proved here to
decompose into the intro, one clause per extraction, and the closing
sentence), each extraction substitutes its own fixed fallback clause when
it fails or finds nothing, and each clause depends only on its own field,
so one extraction's failure cannot affect the other two. -/
theorem c3_narration_total_independent (score : SymbolicScore) (title : String) :
    generate_narration_text score title =
      narrIntro title ++ keyClause score ++ tsClause score ++ tempoClause score ++ narrClosing ∧
    (score.keyAnalysis = none → keyClause score = keyFallback) ∧
    (score.tsLookup = none ∨ score.tsLookup = some [] → tsClause score = tsFallback) ∧
    (score.tempoLookup = none ∨ score.tempoLookup = some [] → tempoClause score = tempoFallback) ∧
    (∀ s2 : SymbolicScore, s2.keyAnalysis = score.keyAnalysis → keyClause s2 = keyClause score) ∧
    (∀ s2 : SymbolicScore, s2.tsLookup = score.tsLookup → tsClause s2 = tsClause score) ∧
    (∀ s2 : SymbolicScore, s2.tempoLookup = score.tempoLookup → tempoClause s2 = tempoClause score) := by
  refine ⟨rfl, ?_, ?_, ?_, ?_, ?_, ?_⟩
  · intro h
    simp [keyClause, h]
  · intro h
    rcases h with h | h <;> simp [tsClause, h]
  · intro h
    rcases h with h | h <;> simp [tempoClause, firstTempo, h]
  · intro s2 h
    simp only [keyClause]
    rw [h]
  · intro s2 h
    simp only [tsClause]
    rw [h]
  · intro s2 h
    simp only [tempoClause]
    rw [h]

/-- C3 witness: a score with no determinable key, no time signature and no
tempo marking still yields the narration string, with all three fallback
clauses. -/
theorem c3_narration_witness :
    generate_narration_text emptyScore "Página sem metadados" =
      narrIntro "Página sem metadados" ++ keyFallback ++ tsFallback ++ tempoFallback ++ narrClosing := by
  have h := c3_narration_total_independent emptyScore "Página sem metadados"
  rw [h.1, h.2.1 rfl, h.2.2.1 (Or.inl rfl), h.2.2.2.1 (Or.inl rfl)]

/-- C4 counterexample: the claim says the resolved title is the placeholder
whenever the metadata title is empty after whitespace normalization.  A
metadata title of a single space is truthy in Python, so line 166 resolves
it to the stripped empty string, not to the placeholder. -/
theorem c4_title_counterexample :
    resolvedTitle 0 "feedc0de" blankTitleScore = "" ∧
    resolvedTitle 0 "feedc0de" blankTitleScore ≠ placeholderTitle 0 "feedc0de" := by
  refine ⟨by decide, by decide⟩

/-- C4 amended: on a successful page the index entry is the resolved title
with `_narrado.wav` appended; the resolved title is the metadata title
stripped and with spaces replaced by underscores whenever the metadata
object is present and the raw title is non-empty (even a whitespace-only
title takes this branch, resolving to the empty string), and the
placeholder `Partitura_<token>_<index>` exactly when the metadata or the
raw title is absent or the raw title is the empty string. -/
theorem c4_title_resolution_amended (i : Nat) (o : PageOracle) (s : SymbolicScore)
    (hp : o.parse = some s) (h : pageSucceeds o = true) :
    (processPage i o).entry =
      some (resolvedTitle i o.token s, resolvedTitle i o.token s ++ "_narrado.wav") ∧
    (∀ md t, s.metadata = some md → md.title = some t → t ≠ "" →
      resolvedTitle i o.token s = replaceSpaces (pyStrip t)) ∧
    (s.metadata = none ∨ s.metadata = some { title := none } ∨
        s.metadata = some { title := some "" } →
      resolvedTitle i o.token s = placeholderTitle i o.token) := by
  refine ⟨(processPage_success i o s hp h).2.1, ?_, ?_⟩
  · intro md t hmd ht hne
    simp [resolvedTitle, hmd, ht, hne]
  · intro hcase
    rcases hcase with h1 | h1 | h1 <;> simp [resolvedTitle, h1]

/-- C4 witness: a successful page whose score is titled
`" Ode à Alegria "` resolves to the stripped, underscored title and the
matching filename; a successful page with no metadata resolves to the
placeholder. -/
theorem c4_title_witness :
    (processPage 0 c4page).entry =
      some (replaceSpaces (pyStrip " Ode à Alegria "),
            replaceSpaces (pyStrip " Ode à Alegria ") ++ "_narrado.wav") ∧
    resolvedTitle 5 "c4token1" emptyScore = placeholderTitle 5 "c4token1" := by
  have h := c4_title_resolution_amended 0 c4page odeScore rfl rfl
  have h2 := c4_title_resolution_amended 5 c4pageUntitled emptyScore rfl rfl
  refine ⟨?_, h2.2.2 (Or.inl rfl)⟩
  rw [h.1, h.2.1 { title := some " Ode à Alegria " } " Ode à Alegria " rfl rfl (by decide)]

/-- C9: the classifier decides music exactly when the fraction of
foreground pixels of the opened image over the page's pixel count strictly
exceeds the threshold 0.01. -/
theorem c9_classifier_threshold (image : List (List Pixel)) :
    is_sheet_music image = true ↔
      ((countNonZero (detected_lines image) : ℚ) / (totalPixelCount image : ℚ) > 1 / 100) := by
  simp [is_sheet_music]

/-! ## Dictionary lemmas for the index accumulation -/

/-- A list none of whose keys is `k` looks up `k` to nothing. -/
lemma lookupKey_of_any_false (d : List (String × String)) (k : String)
    (h : d.any (fun p => p.1 == k) = false) : lookupKey d k = none := by
  induction d with
  | nil => rfl
  | cons p rest ih =>
      rw [List.any_cons] at h
      rcases Bool.or_eq_false_iff.mp h with ⟨h1, h2⟩
      have h1n : ¬ (p.1 = k) := by simpa using h1
      simp [lookupKey, h1n, ih h2]

/-- Lookup across an append: the left list wins when it has the key. -/
lemma lookupKey_append (d e : List (String × String)) (k : String) :
    lookupKey (d ++ e) k =
      match lookupKey d k with
      | some v => some v
      | none => lookupKey e k := by
  induction d with
  | nil => rfl
  | cons p rest ih =>
      by_cases hk : p.1 = k <;> simp [lookupKey, hk, ih]

/-- Updating the value at `k` in place makes lookup at `k` yield the new
value, provided some entry carries `k`. -/
lemma lookupKey_update_self (d : List (String × String)) (k v : String)
    (h : d.any (fun p => p.1 == k) = true) :
    lookupKey (d.map (fun p => if p.1 = k then (k, v) else p)) k = some v := by
  induction d with
  | nil => simp at h
  | cons p rest ih =>
      by_cases hk : p.1 = k
      · simp [lookupKey, hk]
      · rw [List.any_cons] at h
        have h2 : rest.any (fun p => p.1 == k) = true := by
          rcases Bool.or_eq_true_iff.mp h with h1 | h1
          · exact absurd (by simpa using h1) hk
          · exact h1
        simp [lookupKey, hk, ih h2]

/-- Updating the value at `k` leaves lookup at any other key unchanged. -/
lemma lookupKey_update_ne (d : List (String × String)) (k v k' : String)
    (h : k' ≠ k) :
    lookupKey (d.map (fun p => if p.1 = k then (k, v) else p)) k' = lookupKey d k' := by
  induction d with
  | nil => rfl
  | cons p rest ih =>
      by_cases hk : p.1 = k
      · have : ¬ (k = k') := fun hh => h hh.symm
        simp [lookupKey, hk, this, ih, hk ▸ this]
      · simp only [List.map_cons, if_neg hk]
        by_cases hk' : p.1 = k' <;> simp [lookupKey, hk', ih]

/-- Dict assignment then lookup at the same key yields the new value. -/
lemma lookupKey_dictInsert_self (d : List (String × String)) (k v : String) :
    lookupKey (dictInsert d k v) k = some v := by
  cases hA : d.any (fun p => p.1 == k) with
  | true => simp [dictInsert, hA, lookupKey_update_self d k v hA]
  | false =>
      rw [dictInsert, if_neg (by simp [hA]), lookupKey_append]
      rw [lookupKey_of_any_false d k hA]
      simp [lookupKey]

/-- Dict assignment leaves lookup at other keys unchanged. -/
lemma lookupKey_dictInsert_ne (d : List (String × String)) (k v k' : String)
    (h : k' ≠ k) : lookupKey (dictInsert d k v) k' = lookupKey d k' := by
  cases hA : d.any (fun p => p.1 == k) with
  | true => simp [dictInsert, hA, lookupKey_update_ne d k v k' h]
  | false =>
      rw [dictInsert, if_neg (by simp [hA]), lookupKey_append]
      cases hL : lookupKey d k' with
      | some w => simp
      | none =>
          have : ¬ (k = k') := fun hh => h hh.symm
          simp [lookupKey, this]

/-- Lookup after folding dict assignments: the last assignment to the key
wins, and the starting dictionary answers only when no assignment carried
the key. -/
lemma lookupKey_foldl_dictInsert (es : List (String × String))
    (d : List (String × String)) (t : String) :
    lookupKey (es.foldl (fun acc e => dictInsert acc e.1 e.2) d) t =
      match lastVal es t with
      | some v => some v
      | none => lookupKey d t := by
  induction es generalizing d with
  | nil => rfl
  | cons e rest ih =>
      rw [List.foldl_cons, ih]
      cases hL : lastVal rest t with
      | some v => simp [lastVal, hL]
      | none =>
          by_cases he : e.1 = t
          · simp only [lastVal, hL, if_pos he]
            rw [← he]
            exact lookupKey_dictInsert_self d e.1 e.2
          · simp only [lastVal, hL, if_neg he]
            exact lookupKey_dictInsert_ne d e.1 e.2 t (Ne.symm he)

/-- In-place update does not change the key list. -/
lemma keysOf_update (d : List (String × String)) (k v : String) :
    keysOf (d.map (fun p => if p.1 = k then (k, v) else p)) = keysOf d := by
  induction d with
  | nil => rfl
  | cons p rest ih =>
      by_cases hk : p.1 = k <;> simp_all [keysOf]

/-- Dict assignment preserves distinctness of the keys. -/
lemma nodup_keys_dictInsert (d : List (String × String)) (k v : String)
    (h : (keysOf d).Nodup) : (keysOf (dictInsert d k v)).Nodup := by
  cases hA : d.any (fun p => p.1 == k) with
  | true => simpa [dictInsert, hA, keysOf_update] using h
  | false =>
      have hk : k ∉ keysOf d := by
        intro hmem
        obtain ⟨p, hp, hpk⟩ := List.mem_map.mp hmem
        have : d.any (fun p => p.1 == k) = true :=
          List.any_eq_true.mpr ⟨p, hp, by simp [hpk]⟩
        rw [hA] at this
        exact Bool.false_ne_true this
      rw [dictInsert, if_neg (by simp [hA])]
      have : keysOf (d ++ [(k, v)]) = keysOf d ++ [k] := by simp [keysOf]
      rw [this, List.nodup_append]
      exact ⟨h, List.nodup_singleton k, by simpa using hk⟩

/-- Folding dict assignments preserves distinctness of the keys. -/
lemma nodup_keys_foldl (es : List (String × String))
    (d : List (String × String)) (h : (keysOf d).Nodup) :
    (keysOf (es.foldl (fun acc e => dictInsert acc e.1 e.2) d)).Nodup := by
  induction es generalizing d with
  | nil => exact h
  | cons e rest ih => exact ih _ (nodup_keys_dictInsert d e.1 e.2 h)

/-- Splitting `countKey` at a cons cell. -/
lemma countKey_cons (p : String × String) (rest : List (String × String))
    (t : String) :
    countKey (p :: rest) t = (if p.1 = t then 1 else 0) + countKey rest t := by
  by_cases hk : p.1 = t <;> simp [countKey, List.filter_cons, hk, Nat.add_comm]

/-- A key absent from the key list is counted zero times. -/
lemma countKey_eq_zero (d : List (String × String)) (t : String)
    (h : t ∉ keysOf d) : countKey d t = 0 := by
  induction d with
  | nil => rfl
  | cons p rest ih =>
      simp only [keysOf, List.map_cons, List.mem_cons, not_or] at h
      rw [countKey_cons, if_neg (fun hh => h.1 hh.symm),
        ih (by simpa [keysOf] using h.2)]

/-- With distinct keys, no key is counted more than once. -/
lemma countKey_le_one (d : List (String × String))
    (h : (keysOf d).Nodup) (t : String) : countKey d t ≤ 1 := by
  induction d with
  | nil => simp [countKey]
  | cons p rest ih =>
      simp only [keysOf, List.map_cons, List.nodup_cons] at h
      obtain ⟨hnot, hrest⟩ := h
      rw [countKey_cons]
      by_cases hk : p.1 = t
      · rw [if_pos hk, countKey_eq_zero rest t (by simpa [keysOf, hk] using hnot)]
      · rw [if_neg hk, Nat.zero_add]
        exact ih hrest

/-- A successful lookup means the key is counted at least once. -/
lemma countKey_pos_of_lookup (d : List (String × String)) (t v : String)
    (h : lookupKey d t = some v) : 1 ≤ countKey d t := by
  induction d with
  | nil => simp [lookupKey] at h
  | cons p rest ih =>
      rw [countKey_cons]
      by_cases hk : p.1 = t
      · rw [if_pos hk]
        omega
      · rw [lookupKey, if_neg hk] at h
        rw [if_neg hk, Nat.zero_add]
        exact ih h

/-- The page loop is the fold of dict assignments over the entries the
pages produce in order. -/
lemma jobGo_eq_foldl (pages : List PageOracle) (i : Nat)
    (acc : List (String × String)) :
    jobGo i acc pages =
      (pageEntriesGo i pages).foldl (fun acc e => dictInsert acc e.1 e.2) acc := by
  induction pages generalizing i acc with
  | nil => rfl
  | cons o rest ih =>
      cases h : (processPage i o).entry with
      | none => simp [jobGo, pageEntriesGo, h, ih]
      | some e => simp [jobGo, pageEntriesGo, h, ih]

/-- C10: the job never errors over title collisions, the returned index
holds each title at most once, and whenever some page produced an entry
for a title the index holds that title exactly once, with the value of the
LAST page (in page order) that produced an entry for it — the later page
overwrites the earlier one. -/
theorem c10_title_collision_overwrite (pages : List PageOracle) (t : String) :
    (∃ idx, process_pdf true pages = Except.ok idx) ∧
    countKey (jobGo 0 [] pages) t ≤ 1 ∧
    (∀ v, lastVal (pageEntriesGo 0 pages) t = some v →
      lookupKey (jobGo 0 [] pages) t = some v ∧
      countKey (jobGo 0 [] pages) t = 1) := by
  have hnd : (keysOf (jobGo 0 [] pages)).Nodup := by
    rw [jobGo_eq_foldl]
    exact nodup_keys_foldl _ _ (by simp [keysOf])
  refine ⟨⟨jobGo 0 [] pages, by simp [process_pdf]⟩, countKey_le_one _ hnd t, ?_⟩
  intro v hv
  have hl : lookupKey (jobGo 0 [] pages) t = some v := by
    rw [jobGo_eq_foldl, lookupKey_foldl_dictInsert, hv]
  exact ⟨hl,
    le_antisymm (countKey_le_one _ hnd t) (countKey_pos_of_lookup _ _ _ hl)⟩

/-- C10 witness: two fully successful pages both resolving to the title
`Ode` leave exactly one `Ode` entry, the one of the later page. -/
theorem c10_title_collision_witness :
    lookupKey (jobGo 0 [] [ c10pageA, c10pageB ]) "Ode" = some "Ode_narrado.wav" ∧
    countKey (jobGo 0 [] [ c10pageA, c10pageB ]) "Ode" = 1 :=
  (c10_title_collision_overwrite [ c10pageA, c10pageB ] "Ode").2.2
    "Ode_narrado.wav" (by decide)

end Conversor
